import Mathlib

/-!
# Verification of `main/modules.c` (duktape-esp32)

A shallow embedding of the native module layer of the ESP32 Duktape port:
the capability table and its lookup, the log-level table and its scan, the
file loader, the state snapshot, the debugger attach sequence and the module
installers with their stack-depth assertions.

Conventions of the embedding

* A byte is a `Fin 256`.  A Duktape string is its byte sequence (zero bytes
  allowed).  A `char *` is the byte sequence it points at; the terminating
  NUL is the end of the list, and `strcmp` stops at the first zero byte.
* The value stack of the running activation is a list whose head is the
  TOP of the stack: index `-1` is the head, index `0` is the last element.
* Objects live in a heap addressed by natural numbers; a fresh object gets
  the address `next`.  The global object is the distinguished reference
  `Ref.global`.
* Errors thrown by the interpreter, failed assertions and null-pointer
  dereferences are results `Except.error`.  Allocation failure and the
  value-stack limit are not modelled: a push always succeeds.
-/

namespace Esp32Duktape

/-! ## Bytes and C strings -/

/-- An 8-bit byte. -/
abbrev Byte := Fin 256

/-- Bytes of a C string literal (the literals of this file are ASCII). -/
def lit (s : String) : List Byte :=
  s.toList.map (fun c => Fin.ofNat c.toNat)

/-- The string a `char *` denotes: the bytes before the first zero byte. -/
def cstr : List Byte → List Byte
  | [] => []
  | b :: bs => if b = 0 then [] else b :: cstr bs

/-- C `strcmp`: walks both strings while they agree, stops at the first
difference or at a NUL; the end of a list is the terminating NUL. -/
def strcmp : List Byte → List Byte → Int
  | [], [] => 0
  | [], b :: _ => 0 - (b.val : Int)
  | a :: _, [] => (a.val : Int) - 0
  | a :: as, b :: bs =>
    if a ≠ b then (a.val : Int) - (b.val : Int)
    else if a = 0 then 0
    else strcmp as bs

/-! ## Native functions, values, heap -/

/-- The C functions that are bound as native functions in this file. -/
inductive CFunc
  | js_console_log
  | js_global_log
  | js_esp32_reset
  | js_esp32_getState
  | js_esp32_getNativeFunction
  | js_esp32_debug
  | js_esp32_setLogLevel
  | js_esp32_gc
  | js_esp32_loadFile
  | js_startMongoose
  | js_serverResponseMongoose
  deriving DecidableEq, Repr

/-- An IEEE double, as far as this file needs it. -/
inductive DukNumber
  | finite (q : ℚ)
  | posInf
  | negInf
  | nan
  deriving DecidableEq

/-- Reference to an object: the global object or a heap address. -/
inductive Ref
  | global
  | addr (n : Nat)
  deriving DecidableEq, Repr

/-- A tagged Duktape value. -/
inductive Val
  | undefined
  | null
  | boolean (b : Bool)
  | number (x : DukNumber)
  | string (bytes : List Byte)
  | object (r : Ref)
  deriving DecidableEq

/-- What a heap object is: a plain object, or a native function with its
C entry point and declared argument count. -/
inductive ObjKind
  | plain
  | native (func : CFunc) (nargs : Int)
  deriving DecidableEq

/-- A heap object: its kind and its own properties in insertion order. -/
structure HObj where
  kind : ObjKind
  props : List (String × Val)
  deriving DecidableEq

/-- The interpreter context `duk_context`. -/
structure Ctx where
  stack : List Val
  objs : Nat → HObj
  next : Nat
  globalProps : List (String × Val)

/-- Abnormal outcomes. -/
inductive Fault
  | dukError
  | assertFailed
  | nullDeref
  deriving DecidableEq, Repr

/-! ## Property lists -/

/-- Read a property. -/
def getProp (k : String) : List (String × Val) → Option Val
  | [] => none
  | (k', v) :: rest => if k' = k then some v else getProp k rest

/-- Write a property: replace the value of an existing key, else append. -/
def putProp (k : String) (v : Val) : List (String × Val) → List (String × Val)
  | [] => [(k, v)]
  | (k', v') :: rest => if k' = k then (k', v) :: rest else (k', v') :: putProp k v rest

/-! ## The Duktape API used by `modules.c` -/

/-- Embedding of `duk_get_top`. -/
def duk_get_top (ctx : Ctx) : Int := ctx.stack.length

/-- Position, counted from the top, of the value at API index `idx`;
`none` for an invalid index. -/
def slot (ctx : Ctx) (idx : Int) : Option Nat :=
  let top : Int := ctx.stack.length
  if idx < 0 then
    if -idx ≤ top then some (-idx - 1).toNat else none
  else
    if idx < top then some (top - 1 - idx).toNat else none

/-- The value at an API index, if the index is valid. -/
def valueAt (ctx : Ctx) (idx : Int) : Option Val :=
  match slot ctx idx with
  | some p => ctx.stack.get? p
  | none => none

/-- Embedding of `duk_is_string`: false for a non-string and for an invalid index. -/
def duk_is_string (ctx : Ctx) (idx : Int) : Bool :=
  match valueAt ctx idx with
  | some (Val.string _) => true
  | _ => false

/-- Embedding of `duk_get_string`: pointer to the bytes of the string at `idx`; `NULL`
(here `none`) for a non-string or an invalid index. -/
def duk_get_string (ctx : Ctx) (idx : Int) : Option (List Byte) :=
  match valueAt ctx idx with
  | some (Val.string bs) => some bs
  | _ => none

/-- Push a value. -/
def push (ctx : Ctx) (v : Val) : Ctx :=
  { ctx with stack := v :: ctx.stack }

/-- Embedding of `duk_push_null`. -/
def duk_push_null (ctx : Ctx) : Ctx := push ctx Val.null

/-- Allocate a heap object and push a reference to it. -/
def pushNew (ctx : Ctx) (o : HObj) : Ctx :=
  { ctx with
    stack := Val.object (Ref.addr ctx.next) :: ctx.stack
    objs := Function.update ctx.objs ctx.next o
    next := ctx.next + 1 }

/-- Embedding of `duk_push_object`: a fresh empty object. -/
def duk_push_object (ctx : Ctx) : Ctx := pushNew ctx ⟨ObjKind.plain, []⟩

/-- Embedding of `duk_push_c_function`: a fresh native function object. -/
def duk_push_c_function (ctx : Ctx) (func : CFunc) (nargs : Int) : Ctx :=
  pushNew ctx ⟨ObjKind.native func nargs, []⟩

/-- Embedding of `duk_push_global_object`. -/
def duk_push_global_object (ctx : Ctx) : Ctx := push ctx (Val.object Ref.global)

/-- Embedding of `duk_push_number`. -/
def duk_push_number (ctx : Ctx) (x : DukNumber) : Ctx := push ctx (Val.number x)

/-- Embedding of `duk_push_lstring`: a string of exactly the first `len` bytes of `buf`. -/
def duk_push_lstring (ctx : Ctx) (buf : List Byte) (len : Nat) : Ctx :=
  push ctx (Val.string (buf.take len))

/-- Embedding of `duk_pop`: throws on an empty stack. -/
def duk_pop (ctx : Ctx) : Except Fault Ctx :=
  match ctx.stack with
  | [] => Except.error Fault.dukError
  | _ :: rest => Except.ok { ctx with stack := rest }

/-- Embedding of `duk_put_prop_string(ctx, obj_idx, key)`: pops the value on top and
stores it as property `key` of the object at `obj_idx` (an index valid
before the pop).  Throws when the stack is empty, the index is invalid or
the target is not an object. -/
def duk_put_prop_string (ctx : Ctx) (obj_idx : Int) (key : String) : Except Fault Ctx :=
  match valueAt ctx obj_idx, ctx.stack with
  | some (Val.object Ref.global), v :: rest =>
    Except.ok { ctx with stack := rest, globalProps := putProp key v ctx.globalProps }
  | some (Val.object (Ref.addr a)), v :: rest =>
    Except.ok { ctx with
      stack := rest
      objs := Function.update ctx.objs a
        { ctx.objs a with props := putProp key v (ctx.objs a).props } }
  | _, _ => Except.error Fault.dukError

/-! ## The capability table and `ESP32.getNativeFunction` -/

/-- Row of `functionTable`; the sentinel row has a null `id`. -/
structure functionTableEntry_t where
  id : Option (List Byte)
  func : Option CFunc
  paramCount : Int
  deriving DecidableEq

/-- The static table `functionTable`, sentinel included. -/
def functionTable : List functionTableEntry_t :=
  [ ⟨some (lit "startMongoose"), some CFunc.js_startMongoose, 1⟩,
    ⟨some (lit "serverResponseMongoose"), some CFunc.js_serverResponseMongoose, 3⟩,
    ⟨none, none, 0⟩ ]

/-- The `while (ptr->id != NULL)` loop of `js_esp32_getNativeFunction`:
returns the row `ptr` points at when the loop ends.  Running past the end
of the array (no sentinel) is a fault. -/
def scanFunctionTable (nativeFunctionID : List Byte) :
    List functionTableEntry_t → Except Fault functionTableEntry_t
  | [] => Except.error Fault.nullDeref
  | e :: rest =>
    match e.id with
    | none => Except.ok e
    | some id =>
      if strcmp nativeFunctionID id = 0 then Except.ok e
      else scanFunctionTable nativeFunctionID rest

/-- Embedding of `js_esp32_getNativeFunction`. -/
def js_esp32_getNativeFunction (ctx : Ctx) : Except Fault (Ctx × Int) :=
  if duk_is_string ctx 0 then
    match duk_get_string ctx 0 with
    | none => Except.error Fault.nullDeref
    | some nativeFunctionID =>
      match scanFunctionTable nativeFunctionID functionTable with
      | Except.error f => Except.error f
      | Except.ok ptr =>
        match ptr.id, ptr.func with
        | some _, some func => Except.ok (duk_push_c_function ctx func ptr.paramCount, 1)
        | some _, none => Except.error Fault.nullDeref
        | none, _ => Except.ok (duk_push_null ctx, 1)
  else
    Except.ok (duk_push_null ctx, 1)

/-! ## The level table and `ESP32.setLogLevel` -/

/-- The severity codes `esp_log_level_t` of the logging library. -/
inductive esp_log_level_t
  | ESP_LOG_NONE
  | ESP_LOG_ERROR
  | ESP_LOG_WARN
  | ESP_LOG_INFO
  | ESP_LOG_DEBUG
  | ESP_LOG_VERBOSE
  deriving DecidableEq, Repr

open esp_log_level_t

/-- Row of `levels`; the sentinel row is `{NULL, 0}` and `0` is
`ESP_LOG_NONE`. -/
structure level_t where
  levelString : Option (List Byte)
  level : esp_log_level_t
  deriving DecidableEq

/-- The static table `levels`, sentinel included. -/
def levels : List level_t :=
  [ ⟨some (lit "none"), ESP_LOG_NONE⟩,
    ⟨some (lit "error"), ESP_LOG_ERROR⟩,
    ⟨some (lit "warn"), ESP_LOG_WARN⟩,
    ⟨some (lit "info"), ESP_LOG_INFO⟩,
    ⟨some (lit "debug"), ESP_LOG_DEBUG⟩,
    ⟨some (lit "verbose"), ESP_LOG_VERBOSE⟩,
    ⟨none, ESP_LOG_NONE⟩ ]

/-- The `while (pLevels->levelString != NULL)` loop of
`js_esp32_setLogLevel`: the row `pLevels` points at when the loop ends. -/
def scanLevels (levelString : List Byte) : List level_t → Except Fault level_t
  | [] => Except.error Fault.nullDeref
  | e :: rest =>
    match e.levelString with
    | none => Except.ok e
    | some s =>
      if strcmp s levelString = 0 then Except.ok e
      else scanLevels levelString rest

/-- The severity the scan resolves a name to: the level of the row the
scan stops on, or `none` (NOT_FOUND) when it stops on the sentinel. -/
def resolveLevel (levelString : List Byte) : Option esp_log_level_t :=
  match scanLevels levelString levels with
  | Except.ok row =>
    match row.levelString with
    | some _ => some row.level
    | none => none
  | Except.error _ => none

/-- State of the logging library: the `esp_log_level_set` calls made so
far, oldest first, each with the tag (as the C string the library reads)
and the level. -/
structure LogState where
  calls : List (List Byte × esp_log_level_t)
  deriving DecidableEq

/-- Embedding of `esp_log_level_set(tag, level)`. -/
def esp_log_level_set (log : LogState) (tag : List Byte) (level : esp_log_level_t) : LogState :=
  { calls := log.calls ++ [(cstr tag, level)] }

/-- Embedding of `js_esp32_setLogLevel`.  A `NULL` from `duk_get_string` reaches
`strcmp` or `esp_log_level_set` and is a fault. -/
def js_esp32_setLogLevel (ctx : Ctx) (log : LogState) : Except Fault (Ctx × LogState × Int) :=
  let tagToChange := duk_get_string ctx (-2)
  match duk_get_string ctx (-1) with
  | none => Except.error Fault.nullDeref
  | some levelString =>
    match scanLevels levelString levels with
    | Except.error f => Except.error f
    | Except.ok pLevels =>
      match pLevels.levelString with
      | some _ =>
        match tagToChange with
        | none => Except.error Fault.nullDeref
        | some t => Except.ok (ctx, esp_log_level_set log t pLevels.level, 0)
      | none => Except.ok (ctx, log, 0)

/-! ## Files and `ESP32.loadFile` -/

/-- The file system and descriptor table as the POSIX calls of
`js_esp32_loadFile` see them.  The three fault flags make the
corresponding call fail although the file exists; `readLimit` bounds the
bytes that one `read` delivers (a short read). -/
structure Posix where
  files : List Byte → Option (List Byte)
  statFault : Bool
  openFault : Bool
  readFault : Bool
  readLimit : Nat
  openFds : List (Nat × List Byte)
  closed : List Nat

/-- Lowest descriptor number that is not open. -/
def lowestFree (used : List Nat) : Nat :=
  ((List.range (used.length + 1)).find? (fun k => !used.contains k)).getD used.length

/-- Embedding of `stat(path, &statBuf)`: the return code and `st_size`. -/
def stat (w : Posix) (path : List Byte) : Int × Nat :=
  match w.files (cstr path) with
  | none => (-1, 0)
  | some content => if w.statFault then (-1, 0) else (0, content.length)

/-- The call `open(path, O_RDWR)`: the new state and the return value. -/
def open_rdwr (w : Posix) (path : List Byte) : Posix × Int :=
  match w.files (cstr path) with
  | none => (w, -1)
  | some _ =>
    if w.openFault then (w, -1)
    else
      let fd := lowestFree (w.openFds.map Prod.fst)
      ({ w with openFds := (fd, cstr path) :: w.openFds }, (fd : Int))

/-- Embedding of `read(fd, data, count)` on a descriptor at offset 0: the return value
and the bytes stored in the buffer. -/
def read (w : Posix) (fd : Int) (count : Nat) : Int × List Byte :=
  if fd < 0 then (-1, [])
  else
    match w.openFds.lookup fd.toNat with
    | none => (-1, [])
    | some p =>
      match w.files p with
      | none => (-1, [])
      | some content =>
        if w.readFault then (-1, [])
        else
          let data := content.take (min count w.readLimit)
          ((data.length : Int), data)

/-- Embedding of `close(fd)`: the first table entry of that descriptor is removed and
the call is logged. -/
def close (w : Posix) (fd : Int) : Posix :=
  { w with
    openFds := w.openFds.eraseP (fun e => e.1 == fd.toNat)
    closed := w.closed ++ [fd.toNat] }

/-- Embedding of `js_esp32_loadFile`. -/
def js_esp32_loadFile (ctx : Ctx) (w : Posix) : Except Fault (Ctx × Posix × Int) :=
  match duk_get_string ctx (-1) with
  | none => Except.error Fault.nullDeref
  | some path =>
    let (rc, st_size) := stat w path
    if rc < 0 then Except.ok (ctx, w, 0)
    else
      let (w1, fd) := open_rdwr w path
      if fd < 0 then Except.ok (ctx, w1, 0)
      else
        let (sizeRead, data) := read w1 fd st_size
        if sizeRead < 0 then
          Except.ok (ctx, close w1 fd, 0)
        else
          let w2 := close w1 fd
          Except.ok (duk_push_lstring ctx data sizeRead.toNat, w2, 1)

/-! ## `ESP32.getState` -/

/-- Conversion `(double)` of a `uint32_t`, which is exact. -/
def double_of_uint32 (n : Nat) : DukNumber :=
  DukNumber.finite ((n % 2 ^ 32 : Nat) : ℚ)

/-- Embedding of `js_esp32_getState`; `freeHeap` is what `esp_get_free_heap_size()`
returns. -/
def js_esp32_getState (ctx : Ctx) (freeHeap : Nat) : Except Fault (Ctx × Int) := do
  let ctx := duk_push_object ctx
  let ctx := duk_push_number ctx (double_of_uint32 freeHeap)
  let ctx ← duk_put_prop_string ctx (-2) "heapSize"
  return (ctx, 1)

/-! ## The debugger attach -/

/-- States of the debug transport (`DebugSession.transportState`). -/
inductive TransportState
  | CLOSED
  | LISTENING
  | CONNECTED
  | ATTACHED
  deriving DecidableEq, Repr

/-- The callbacks of the socket transport (`duk_trans_socket.h`). -/
inductive TransportCb
  | duk_trans_socket_read_cb
  | duk_trans_socket_write_cb
  | duk_trans_socket_peek_cb
  | duk_trans_socket_read_flush_cb
  | duk_trans_socket_write_flush_cb
  deriving DecidableEq, Repr

/-- The callback slots of the interpreter's debugger; `none` is `NULL`. -/
structure DebugSlots where
  read_cb : Option TransportCb
  write_cb : Option TransportCb
  peek_cb : Option TransportCb
  read_flush_cb : Option TransportCb
  write_flush_cb : Option TransportCb
  detached_cb : Option TransportCb
  udata : Option Nat
  deriving DecidableEq

/-- The debug session: the transport state, every state entered so far
(oldest first), the callback slots, and the state the session was in at
each call of `duk_debugger_attach`. -/
structure DebugSession where
  transportState : TransportState
  entered : List TransportState
  slots : DebugSlots
  attachedIn : List TransportState
  deriving DecidableEq

open TransportState TransportCb

/-- Modelled from the spec: `duk_trans_socket_init`, which is not in this
file; it initialises the network transport in the `LISTENING` state. -/
def duk_trans_socket_init (d : DebugSession) : DebugSession :=
  { d with transportState := LISTENING, entered := d.entered ++ [LISTENING] }

/-- Modelled from the spec: `duk_trans_socket_waitconn`, which is not in
this file; it blocks until a remote connection arrives and the session is
then `CONNECTED`.  `remoteConnects` tells whether a debugger ever connects;
if none does the call never returns (`none`). -/
def duk_trans_socket_waitconn (remoteConnects : Bool) (d : DebugSession) : Option DebugSession :=
  if remoteConnects then
    some { d with transportState := CONNECTED, entered := d.entered ++ [CONNECTED] }
  else none

/-- Modelled from the spec: `duk_debugger_attach` of the interpreter; it
stores the callbacks in the debugger's slots and the session is then
`ATTACHED`. -/
def duk_debugger_attach (d : DebugSession)
    (read_cb write_cb peek_cb read_flush_cb write_flush_cb detached_cb : Option TransportCb)
    (udata : Option Nat) : DebugSession :=
  { transportState := ATTACHED
    entered := d.entered ++ [ATTACHED]
    slots := ⟨read_cb, write_cb, peek_cb, read_flush_cb, write_flush_cb, detached_cb, udata⟩
    attachedIn := d.attachedIn ++ [d.transportState] }

/-- Embedding of `js_esp32_debug`: the session when the call returns or, if the wait
never ends, the session it is left in; and the return value if it returns. -/
def js_esp32_debug (remoteConnects : Bool) (d : DebugSession) : DebugSession × Option Int :=
  let d1 := duk_trans_socket_init d
  match duk_trans_socket_waitconn remoteConnects d1 with
  | none => (d1, none)
  | some d2 =>
    (duk_debugger_attach d2
      (some duk_trans_socket_read_cb)
      (some duk_trans_socket_write_cb)
      (some duk_trans_socket_peek_cb)
      (some duk_trans_socket_read_flush_cb)
      (some duk_trans_socket_write_flush_cb)
      none
      none, some 0)

/-! ## The module installers -/

/-- Embedding of `ModuleConsole`. -/
def ModuleConsole (ctx : Ctx) : Except Fault Ctx := do
  let ctx := duk_push_global_object ctx
  let ctx := duk_push_c_function ctx CFunc.js_global_log 1
  let ctx ← duk_put_prop_string ctx (-2) "log"
  let ctx := duk_push_object ctx
  let ctx := duk_push_c_function ctx CFunc.js_console_log 1
  let ctx ← duk_put_prop_string ctx (-2) "log"
  let ctx ← duk_put_prop_string ctx (-2) "console"
  duk_pop ctx

/-- Embedding of `ModuleESP32`. -/
def ModuleESP32 (ctx : Ctx) : Except Fault Ctx := do
  let ctx := duk_push_global_object ctx
  let ctx := duk_push_object ctx
  let ctx := duk_push_c_function ctx CFunc.js_esp32_reset 0
  let ctx ← duk_put_prop_string ctx (-2) "reset"
  let ctx := duk_push_c_function ctx CFunc.js_esp32_getState 0
  let ctx ← duk_put_prop_string ctx (-2) "getState"
  let ctx := duk_push_c_function ctx CFunc.js_esp32_getNativeFunction 1
  let ctx ← duk_put_prop_string ctx (-2) "getNativeFunction"
  let ctx := duk_push_c_function ctx CFunc.js_esp32_debug 0
  let ctx ← duk_put_prop_string ctx (-2) "debug"
  let ctx := duk_push_c_function ctx CFunc.js_esp32_setLogLevel 2
  let ctx ← duk_put_prop_string ctx (-2) "setLogLevel"
  let ctx := duk_push_c_function ctx CFunc.js_esp32_gc 0
  let ctx ← duk_put_prop_string ctx (-2) "gc"
  let ctx := duk_push_c_function ctx CFunc.js_esp32_loadFile 1
  let ctx ← duk_put_prop_string ctx (-2) "loadFile"
  let ctx ← duk_put_prop_string ctx (-2) "ESP32"
  duk_pop ctx

/-- The installers that `registerModules` calls and that live in other
files of the firmware. -/
structure ExternalModules where
  ModuleFS : Ctx → Except Fault Ctx
  ModuleGPIO : Ctx → Except Fault Ctx
  ModuleTIMERS : Ctx → Except Fault Ctx
  ModuleWIFI : Ctx → Except Fault Ctx
  ModuleRMT : Ctx → Except Fault Ctx
  ModuleHTTP : Ctx → Except Fault Ctx
  ModulePARTITIONS : Ctx → Except Fault Ctx
  ModuleMONGOOSE : Ctx → Except Fault Ctx
  ModuleOS : Ctx → Except Fault Ctx

/-- C `assert`: a false condition aborts. -/
def assert (cond : Bool) : Except Fault Unit :=
  if cond then Except.ok () else Except.error Fault.assertFailed

/-- Embedding of `registerModules`. -/
def registerModules (ext : ExternalModules) (ctx : Ctx) : Except Fault Ctx := do
  let top := duk_get_top ctx
  let ctx ← ModuleConsole ctx
  assert (top == duk_get_top ctx)
  let ctx ← ModuleESP32 ctx
  assert (top == duk_get_top ctx)
  let ctx ← ext.ModuleFS ctx
  assert (top == duk_get_top ctx)
  let ctx ← ext.ModuleGPIO ctx
  assert (top == duk_get_top ctx)
  let ctx ← ext.ModuleTIMERS ctx
  assert (top == duk_get_top ctx)
  let ctx ← ext.ModuleWIFI ctx
  assert (top == duk_get_top ctx)
  let ctx ← ext.ModuleRMT ctx
  assert (top == duk_get_top ctx)
  let ctx ← ext.ModuleHTTP ctx
  assert (top == duk_get_top ctx)
  let ctx ← ext.ModulePARTITIONS ctx
  assert (top == duk_get_top ctx)
  let ctx ← ext.ModuleMONGOOSE ctx
  assert (top == duk_get_top ctx)
  let ctx ← ext.ModuleOS ctx
  assert (top == duk_get_top ctx)
  return ctx

/-! ## Observations and concrete inputs -/

/-- What the caller of a native function receives. -/
inductive Outcome
  | thrown (f : Fault)
  | noValue
  | value (v : Val) (target : Option HObj)
  deriving DecidableEq

/-- The heap object a value refers to. -/
def deref (ctx : Ctx) : Val → Option HObj
  | Val.object (Ref.addr a) => some (ctx.objs a)
  | _ => none

/-- Reading of a native function's result: return code 0 hands back no
value, return code 1 hands back the value on top of the stack. -/
def outcome : Except Fault (Ctx × Int) → Outcome
  | Except.error f => Outcome.thrown f
  | Except.ok (ctx, rc) =>
    if rc = 0 then Outcome.noValue
    else if rc = 1 then
      match ctx.stack with
      | v :: _ => Outcome.value v (deref ctx v)
      | [] => Outcome.thrown Fault.dukError
    else Outcome.thrown Fault.dukError

/-- A context with an empty heap and the given stack (top first). -/
def Ctx.ofStack (stack : List Val) : Ctx :=
  ⟨stack, fun _ => ⟨ObjKind.plain, []⟩, 0, []⟩

/-- A file system holding the single file `name` with the given content,
no descriptor open, no fault, and reads of at most `readLimit` bytes. -/
def Posix.single (name content : List Byte) (readLimit : Nat) : Posix :=
  { files := fun p => if p = name then some content else none
    statFault := false
    openFault := false
    readFault := false
    readLimit := readLimit
    openFds := []
    closed := [] }

/-- A session that has never been used: transport closed, no callback
bound, no attach performed. -/
def DebugSession.fresh : DebugSession :=
  ⟨CLOSED, [], ⟨none, none, none, none, none, none, none⟩, []⟩

/-- External installers that install nothing. -/
def ExternalModules.idle : ExternalModules :=
  ⟨Except.ok, Except.ok, Except.ok, Except.ok, Except.ok, Except.ok, Except.ok, Except.ok,
    Except.ok⟩

/-- An installer is net-zero: it returns normally and leaves the stack at
the depth it found. -/
def NetZero (m : Ctx → Except Fault Ctx) : Prop :=
  ∀ ctx, ∃ ctx', m ctx = Except.ok ctx' ∧ duk_get_top ctx' = duk_get_top ctx

/-- The six level names of the `levels` table. -/
def levelNames : List (List Byte) :=
  [lit "none", lit "error", lit "warn", lit "info", lit "debug", lit "verbose"]

/-! ## Lemmas on C strings and the two tables -/

/-- Two pointers compare equal under `strcmp` exactly when they denote the
same C string. -/
theorem strcmp_eq_zero_iff (a b : List Byte) : strcmp a b = 0 ↔ cstr a = cstr b := by
  induction a generalizing b with
  | nil =>
    cases b with
    | nil => simp [strcmp, cstr]
    | cons y ys =>
      by_cases hy : y = 0
      · simp [strcmp, cstr, hy]
      · have : (y.val : Int) ≠ 0 := by
          intro h
          apply hy
          apply Fin.ext
          simpa using h
        simp [strcmp, cstr, hy]
        omega
  | cons x xs ih =>
    cases b with
    | nil =>
      by_cases hx : x = 0
      · simp [strcmp, cstr, hx]
      · have : (x.val : Int) ≠ 0 := by
          intro h
          apply hx
          apply Fin.ext
          simpa using h
        simp [strcmp, cstr, hx]
        omega
    | cons y ys =>
      by_cases hxy : x = y
      · subst hxy
        by_cases hx : x = 0
        · simp [strcmp, cstr, hx]
        · simp [strcmp, cstr, hx, ih]
      · have hne : (x.val : Int) - (y.val : Int) ≠ 0 := by
          intro h
          apply hxy
          apply Fin.ext
          omega
        by_cases hx : x = 0 <;> by_cases hy : y = 0 <;> simp_all [strcmp, cstr]

/-- A string without a zero byte is the C string its pointer denotes. -/
theorem cstr_of_no_nul (s : List Byte) (h : (0 : Byte) ∉ s) : cstr s = s := by
  induction s with
  | nil => rfl
  | cons b bs ih =>
    have hb : b ≠ 0 := fun hb => h (by simp [hb])
    have hbs : (0 : Byte) ∉ bs := fun hm => h (List.mem_cons_of_mem _ hm)
    simp [cstr, hb, ih hbs]

/-- The row on which the scan of `functionTable` stops, by the C string looked
up. -/
theorem scanFunctionTable_eq (s : List Byte) :
    scanFunctionTable s functionTable =
      if cstr s = lit "startMongoose" then
        Except.ok ⟨some (lit "startMongoose"), some CFunc.js_startMongoose, 1⟩
      else if cstr s = lit "serverResponseMongoose" then
        Except.ok ⟨some (lit "serverResponseMongoose"), some CFunc.js_serverResponseMongoose, 3⟩
      else Except.ok ⟨none, none, 0⟩ := by
  have h1 : cstr (lit "startMongoose") = lit "startMongoose" := by decide
  have h2 : cstr (lit "serverResponseMongoose") = lit "serverResponseMongoose" := by decide
  simp only [functionTable, scanFunctionTable, strcmp_eq_zero_iff, h1, h2]

/-- The row on which the scan of `levels` stops, by the C string looked up. -/
theorem scanLevels_eq (s : List Byte) :
    scanLevels s levels =
      if cstr s = lit "none" then Except.ok ⟨some (lit "none"), ESP_LOG_NONE⟩
      else if cstr s = lit "error" then Except.ok ⟨some (lit "error"), ESP_LOG_ERROR⟩
      else if cstr s = lit "warn" then Except.ok ⟨some (lit "warn"), ESP_LOG_WARN⟩
      else if cstr s = lit "info" then Except.ok ⟨some (lit "info"), ESP_LOG_INFO⟩
      else if cstr s = lit "debug" then Except.ok ⟨some (lit "debug"), ESP_LOG_DEBUG⟩
      else if cstr s = lit "verbose" then Except.ok ⟨some (lit "verbose"), ESP_LOG_VERBOSE⟩
      else Except.ok ⟨none, ESP_LOG_NONE⟩ := by
  have h1 : cstr (lit "none") = lit "none" := by decide
  have h2 : cstr (lit "error") = lit "error" := by decide
  have h3 : cstr (lit "warn") = lit "warn" := by decide
  have h4 : cstr (lit "info") = lit "info" := by decide
  have h5 : cstr (lit "debug") = lit "debug" := by decide
  have h6 : cstr (lit "verbose") = lit "verbose" := by decide
  simp only [levels, scanLevels, strcmp_eq_zero_iff, h1, h2, h3, h4, h5, h6, eq_comm]

/-- The severity a name resolves to, by the C string it denotes. -/
theorem resolveLevel_eq (s : List Byte) :
    resolveLevel s =
      if cstr s = lit "none" then some ESP_LOG_NONE
      else if cstr s = lit "error" then some ESP_LOG_ERROR
      else if cstr s = lit "warn" then some ESP_LOG_WARN
      else if cstr s = lit "info" then some ESP_LOG_INFO
      else if cstr s = lit "debug" then some ESP_LOG_DEBUG
      else if cstr s = lit "verbose" then some ESP_LOG_VERBOSE
      else none := by
  unfold resolveLevel
  rw [scanLevels_eq]
  split_ifs <;> rfl

/-! ## Lemmas on the file calls -/

/-- What `read` delivers on the descriptor a successful `open` has just
returned. -/
theorem read_after_open (w : Posix) (path content : List Byte) (count : Nat)
    (hf : w.files (cstr path) = some content) (ho : w.openFault = false) :
    read (open_rdwr w path).1 (open_rdwr w path).2 count =
      if w.readFault then (-1, [])
      else (((content.take (min count w.readLimit)).length : Int),
        content.take (min count w.readLimit)) := by
  simp [read, open_rdwr, hf, ho, List.lookup]

/-- The result of `js_esp32_loadFile` for a string argument, by cases on the
file system. -/
theorem loadFile_eq (ctx : Ctx) (w : Posix) (path : List Byte)
    (h : duk_get_string ctx (-1) = some path) :
    js_esp32_loadFile ctx w =
      match w.files (cstr path) with
      | none => Except.ok (ctx, w, 0)
      | some content =>
        if w.statFault then Except.ok (ctx, w, 0)
        else if w.openFault then Except.ok (ctx, w, 0)
        else if w.readFault then
          Except.ok (ctx,
            { w with closed := w.closed ++ [lowestFree (w.openFds.map Prod.fst)] }, 0)
        else
          Except.ok (push ctx (Val.string (content.take w.readLimit)),
            { w with closed := w.closed ++ [lowestFree (w.openFds.map Prod.fst)] }, 1) := by
  unfold js_esp32_loadFile
  rw [h]
  cases hf : w.files (cstr path) with
  | none => simp [stat, hf]
  | some content =>
    cases hs : w.statFault with
    | true => simp [stat, hf, hs]
    | false =>
      cases ho : w.openFault with
      | true => simp [stat, hf, hs, open_rdwr, ho]
      | false =>
        have hfd : ¬ ((lowestFree (w.openFds.map Prod.fst) : Nat) : Int) < 0 := by omega
        have hlen : ¬ ((content.length : Nat) : Int) < 0 := by omega
        have hlim : ¬ ((w.readLimit : Nat) : Int) < 0 := by omega
        cases hrf : w.readFault with
        | true =>
          simp [stat, hf, hs, open_rdwr, ho, read, hrf, close, List.lookup, List.eraseP, hfd]
        | false =>
          simp [stat, hf, hs, open_rdwr, ho, read, hrf, close, List.lookup, List.eraseP, hfd,
            hlen, hlim, duk_push_lstring, List.take_take]
          rw [← Nat.cast_min, Int.toNat_natCast]
          congr 2
          rw [List.take_eq_take]
          omega

/-- The call `stat` succeeds exactly when the file exists and no fault is
injected. -/
theorem stat_ok_iff (w : Posix) (path : List Byte) :
    ¬ (stat w path).1 < 0 ↔ ∃ content, w.files (cstr path) = some content ∧ w.statFault = false := by
  unfold stat
  cases hf : w.files (cstr path) with
  | none => simp
  | some content => cases hs : w.statFault <;> simp

/-- The call `open` succeeds exactly when the file exists and no fault is
injected. -/
theorem open_ok_iff (w : Posix) (path : List Byte) :
    ¬ (open_rdwr w path).2 < 0 ↔ ∃ content, w.files (cstr path) = some content ∧ w.openFault = false := by
  unfold open_rdwr
  cases hf : w.files (cstr path) with
  | none => simp
  | some content =>
    cases hs : w.openFault
    · simp
    · simp

/-! ## Lemmas on properties and the installers -/

/-- A property just written reads back. -/
theorem getProp_putProp_same (k : String) (v : Val) (l : List (String × Val)) :
    getProp k (putProp k v l) = some v := by
  induction l with
  | nil => simp [putProp, getProp]
  | cons p rest ih =>
    obtain ⟨k', v'⟩ := p
    by_cases hk : k' = k
    · simp [putProp, getProp, hk]
    · simp [putProp, getProp, hk, ih]

/-- Writing a property leaves the other properties as they were. -/
theorem getProp_putProp_ne (k k' : String) (v : Val) (l : List (String × Val)) (hne : k' ≠ k) :
    getProp k' (putProp k v l) = getProp k' l := by
  induction l with
  | nil => simp [putProp, getProp, Ne.symm hne]
  | cons p rest ih =>
    obtain ⟨k2, v2⟩ := p
    by_cases hk : k2 = k
    · subst hk
      simp [putProp, getProp, Ne.symm hne]
    · by_cases hk2 : k2 = k'
      · subst hk2
        simp [putProp, getProp, hne]
      · simp [putProp, getProp, hk, hk2, ih]

/-- Property write at index -2 when the global object is just below the top.
-/
theorem put_neg_two_global (v : Val) (rest : List Val) (objs : Nat → HObj) (next : Nat)
    (gp : List (String × Val)) (key : String) :
    duk_put_prop_string ⟨v :: Val.object Ref.global :: rest, objs, next, gp⟩ (-2) key
      = Except.ok ⟨Val.object Ref.global :: rest, objs, next, putProp key v gp⟩ := by
  have h2 : (2 : Int) ≤ (rest.length : Int) + 1 + 1 := by omega
  simp [duk_put_prop_string, valueAt, slot, h2]

/-- Property write at index -2 when a heap object is just below the top. -/
theorem put_neg_two_addr (v : Val) (a : Nat) (rest : List Val) (objs : Nat → HObj) (next : Nat)
    (gp : List (String × Val)) (key : String) :
    duk_put_prop_string ⟨v :: Val.object (Ref.addr a) :: rest, objs, next, gp⟩ (-2) key
      = Except.ok ⟨Val.object (Ref.addr a) :: rest,
          Function.update objs a { objs a with props := putProp key v (objs a).props }, next, gp⟩ := by
  have h2 : (2 : Int) ≤ (rest.length : Int) + 1 + 1 := by omega
  simp [duk_put_prop_string, valueAt, slot, h2]

/-- The context `ModuleConsole` returns. -/
theorem ModuleConsole_eq (ctx : Ctx) :
    ModuleConsole ctx = Except.ok
      { stack := ctx.stack
        objs := fun a =>
          if a = ctx.next then ⟨ObjKind.native CFunc.js_global_log 1, []⟩
          else if a = ctx.next + 1 then
            ⟨ObjKind.plain, [("log", Val.object (Ref.addr (ctx.next + 2)))]⟩
          else if a = ctx.next + 2 then ⟨ObjKind.native CFunc.js_console_log 1, []⟩
          else ctx.objs a
        next := ctx.next + 3
        globalProps := putProp "console" (Val.object (Ref.addr (ctx.next + 1)))
          (putProp "log" (Val.object (Ref.addr ctx.next)) ctx.globalProps) } := by
  simp only [ModuleConsole, duk_push_global_object, duk_push_c_function, duk_push_object, pushNew,
    push, put_neg_two_global, put_neg_two_addr, duk_pop, bind, Except.bind, putProp]
  congr 2
  funext a
  simp only [Function.update_apply]
  split_ifs <;> first | rfl | omega

/-- The context `ModuleESP32` returns. -/
theorem ModuleESP32_eq (ctx : Ctx) :
    ModuleESP32 ctx = Except.ok
      { stack := ctx.stack
        objs := fun a =>
          if a = ctx.next then
            ⟨ObjKind.plain,
              [("reset", Val.object (Ref.addr (ctx.next + 1))),
                ("getState", Val.object (Ref.addr (ctx.next + 2))),
                ("getNativeFunction", Val.object (Ref.addr (ctx.next + 3))),
                ("debug", Val.object (Ref.addr (ctx.next + 4))),
                ("setLogLevel", Val.object (Ref.addr (ctx.next + 5))),
                ("gc", Val.object (Ref.addr (ctx.next + 6))),
                ("loadFile", Val.object (Ref.addr (ctx.next + 7)))]⟩
          else if a = ctx.next + 1 then ⟨ObjKind.native CFunc.js_esp32_reset 0, []⟩
          else if a = ctx.next + 2 then ⟨ObjKind.native CFunc.js_esp32_getState 0, []⟩
          else if a = ctx.next + 3 then ⟨ObjKind.native CFunc.js_esp32_getNativeFunction 1, []⟩
          else if a = ctx.next + 4 then ⟨ObjKind.native CFunc.js_esp32_debug 0, []⟩
          else if a = ctx.next + 5 then ⟨ObjKind.native CFunc.js_esp32_setLogLevel 2, []⟩
          else if a = ctx.next + 6 then ⟨ObjKind.native CFunc.js_esp32_gc 0, []⟩
          else if a = ctx.next + 7 then ⟨ObjKind.native CFunc.js_esp32_loadFile 1, []⟩
          else ctx.objs a
        next := ctx.next + 8
        globalProps := putProp "ESP32" (Val.object (Ref.addr ctx.next)) ctx.globalProps } := by
  simp [ModuleESP32, duk_push_global_object, duk_push_c_function, duk_push_object, pushNew,
    push, put_neg_two_global, put_neg_two_addr, duk_pop, bind, Except.bind, putProp,
    Function.update_apply, Nat.add_assoc]
  funext a
  simp only [Function.update_apply]
  split_ifs <;> first | rfl | omega

/-- One step of `registerModules`: a net-zero installer followed by its
assertion. -/
theorem installer_step (m : Ctx → Except Fault Ctx) (hm : NetZero m) (top : Int) (ctx : Ctx)
    (ht : duk_get_top ctx = top) (k : Ctx → Except Fault Ctx) :
    ∃ c, duk_get_top c = top ∧
      (do
        let c ← m ctx
        assert (top == duk_get_top c)
        k c) = k c := by
  obtain ⟨c, hc, hd⟩ := hm ctx
  refine ⟨c, hd.trans ht, ?_⟩
  simp [hc, bind, Except.bind, assert, hd, ht]

/-- The installer `ModuleConsole` is net-zero. -/
theorem ModuleConsole_netZero : NetZero ModuleConsole := by
  intro ctx
  exact ⟨_, ModuleConsole_eq ctx, rfl⟩

/-- The installer `ModuleESP32` is net-zero. -/
theorem ModuleESP32_netZero : NetZero ModuleESP32 := by
  intro ctx
  exact ⟨_, ModuleESP32_eq ctx, rfl⟩

/-- With net-zero external installers `registerModules` passes every
assertion. -/
theorem registerModules_ok (ext : ExternalModules) (ctx : Ctx)
    (hm1 : NetZero ext.ModuleFS) (hm2 : NetZero ext.ModuleGPIO)
    (hm3 : NetZero ext.ModuleTIMERS) (hm4 : NetZero ext.ModuleWIFI)
    (hm5 : NetZero ext.ModuleRMT) (hm6 : NetZero ext.ModuleHTTP)
    (hm7 : NetZero ext.ModulePARTITIONS) (hm8 : NetZero ext.ModuleMONGOOSE)
    (hm9 : NetZero ext.ModuleOS) :
    ∃ c, registerModules ext ctx = Except.ok c ∧ duk_get_top c = duk_get_top ctx := by
  unfold registerModules
  obtain ⟨c1, t1, e1⟩ := installer_step ModuleConsole ModuleConsole_netZero _ ctx rfl _
  rw [e1]
  obtain ⟨c2, t2, e2⟩ := installer_step ModuleESP32 ModuleESP32_netZero _ c1 t1 _
  rw [e2]
  obtain ⟨c3, t3, e3⟩ := installer_step _ hm1 _ c2 t2 _
  rw [e3]
  obtain ⟨c4, t4, e4⟩ := installer_step _ hm2 _ c3 t3 _
  rw [e4]
  obtain ⟨c5, t5, e5⟩ := installer_step _ hm3 _ c4 t4 _
  rw [e5]
  obtain ⟨c6, t6, e6⟩ := installer_step _ hm4 _ c5 t5 _
  rw [e6]
  obtain ⟨c7, t7, e7⟩ := installer_step _ hm5 _ c6 t6 _
  rw [e7]
  obtain ⟨c8, t8, e8⟩ := installer_step _ hm6 _ c7 t7 _
  rw [e8]
  obtain ⟨c9, t9, e9⟩ := installer_step _ hm7 _ c8 t8 _
  rw [e9]
  obtain ⟨c10, t10, e10⟩ := installer_step _ hm8 _ c9 t9 _
  rw [e10]
  obtain ⟨c11, t11, e11⟩ := installer_step _ hm9 _ c10 t10 (fun c => pure c)
  rw [e11]
  exact ⟨c11, rfl, t11⟩

/-- The assertions are effective: an external installer that leaves one value
on the stack makes `registerModules` abort, while installers that push nothing
let it finish. -/
theorem registerModules_detects_leak :
    (registerModules { ExternalModules.idle with ModuleFS := fun c => Except.ok (duk_push_null c) }
        (Ctx.ofStack [])).toOption.isNone = true ∧
      (registerModules ExternalModules.idle (Ctx.ofStack [])).toOption.isSome = true := by
  constructor
  · rfl
  · rfl

/-! ## Claims -/

/-- C1, as the code has it: with `v` the argument at index 0,
`js_esp32_getNativeFunction` returns normally with return code 1 in every
case.  If `v` is a string whose bytes before its first zero byte spell
`startMongoose`, the value pushed is a fresh native function for
`js_startMongoose` with arity 1; if they spell `serverResponseMongoose`, one for
`js_serverResponseMongoose` with arity 3; for every other string, and for every
value that is not a string, the value pushed is null.  (For a string
without a zero byte, `cstr` is the string itself: `cstr_of_no_nul`.) -/
theorem getNativeFunction_cstr (ctx : Ctx) (v : Val) (h : valueAt ctx 0 = some v) :
    js_esp32_getNativeFunction ctx =
      Except.ok
        (match v with
          | Val.string bs =>
            if cstr bs = lit "startMongoose" then
              duk_push_c_function ctx CFunc.js_startMongoose 1
            else if cstr bs = lit "serverResponseMongoose" then
              duk_push_c_function ctx CFunc.js_serverResponseMongoose 3
            else duk_push_null ctx
          | _ => duk_push_null ctx, 1) := by
  cases v with
  | string bs =>
    simp only [js_esp32_getNativeFunction, duk_is_string, duk_get_string, h, scanFunctionTable_eq]
    split_ifs <;> rfl
  | _ => simp [js_esp32_getNativeFunction, duk_is_string, h]

/-- C1 at a concrete call: the argument `serverResponseMongoose` yields a
native function object for `js_serverResponseMongoose` with arity 3. -/
theorem getNativeFunction_cstr_witness :
    valueAt (Ctx.ofStack [Val.string (lit "serverResponseMongoose")]) 0
        = some (Val.string (lit "serverResponseMongoose")) ∧
      outcome (js_esp32_getNativeFunction (Ctx.ofStack [Val.string (lit "serverResponseMongoose")]))
        = Outcome.value (Val.object (Ref.addr 0))
            (some ⟨ObjKind.native CFunc.js_serverResponseMongoose 3, []⟩) := by
  refine ⟨by decide, ?_⟩
  rw [getNativeFunction_cstr _ (Val.string (lit "serverResponseMongoose")) (by decide)]
  decide

/-- C1 fails as stated: the 15-byte string `startMongoose`, zero byte, `x`
is not the id of any table entry, yet the call returns the native function
`js_startMongoose` with arity 1 instead of null. -/
theorem getNativeFunction_embedded_nul :
    (∀ e ∈ functionTable, e.id ≠ some (lit "startMongoose" ++ [0, 120])) ∧
      outcome (js_esp32_getNativeFunction
          (Ctx.ofStack [Val.string (lit "startMongoose" ++ [0, 120])]))
        = Outcome.value (Val.object (Ref.addr 0))
            (some ⟨ObjKind.native CFunc.js_startMongoose 1, []⟩) := by
  constructor
  · decide
  · decide

/-- C2: `ModuleConsole` and `ModuleESP32` each return normally and leave
the stack exactly as they found it; and when the nine external installers
are net-zero, `registerModules` returns normally (none of its eleven
assertions fails) with the stack at the depth it had before. -/
theorem registerModules_net_zero (ctx : Ctx) :
    (∃ c, ModuleConsole ctx = Except.ok c ∧ c.stack = ctx.stack ∧
      duk_get_top c = duk_get_top ctx) ∧
    (∃ c, ModuleESP32 ctx = Except.ok c ∧ c.stack = ctx.stack ∧
      duk_get_top c = duk_get_top ctx) ∧
    (∀ ext : ExternalModules,
      NetZero ext.ModuleFS → NetZero ext.ModuleGPIO → NetZero ext.ModuleTIMERS →
      NetZero ext.ModuleWIFI → NetZero ext.ModuleRMT → NetZero ext.ModuleHTTP →
      NetZero ext.ModulePARTITIONS → NetZero ext.ModuleMONGOOSE → NetZero ext.ModuleOS →
      ∃ c, registerModules ext ctx = Except.ok c ∧ duk_get_top c = duk_get_top ctx) := by
  refine ⟨⟨_, ModuleConsole_eq ctx, rfl, rfl⟩, ⟨_, ModuleESP32_eq ctx, rfl, rfl⟩, ?_⟩
  intro ext hm1 hm2 hm3 hm4 hm5 hm6 hm7 hm8 hm9
  exact registerModules_ok ext ctx hm1 hm2 hm3 hm4 hm5 hm6 hm7 hm8 hm9

/-- C2 at a concrete input: with external installers that install nothing,
registration on a stack holding one value ends normally at depth 1. -/
theorem registerModules_net_zero_witness :
    NetZero ExternalModules.idle.ModuleFS ∧
      ∃ c, registerModules ExternalModules.idle (Ctx.ofStack [Val.null]) = Except.ok c ∧
        duk_get_top c = 1 := by
  have hid : NetZero (Except.ok : Ctx → Except Fault Ctx) := fun ctx => ⟨ctx, rfl, rfl⟩
  exact ⟨hid, (registerModules_net_zero (Ctx.ofStack [Val.null])).2.2 ExternalModules.idle
    hid hid hid hid hid hid hid hid hid⟩

/-- C3, as the code has it: the scan over `levels` decides on the bytes of
the name before its first zero byte.  When those spell one of the six level
names the scan stops on that row and the name resolves to its severity; in
every other case the scan stops on the sentinel and nothing is resolved.
(For a name without a zero byte, `cstr` is the name itself:
`cstr_of_no_nul`.) -/
theorem levels_scan_cstr (name : List Byte) :
    scanLevels name levels =
        (if cstr name = lit "none" then Except.ok ⟨some (lit "none"), ESP_LOG_NONE⟩
        else if cstr name = lit "error" then Except.ok ⟨some (lit "error"), ESP_LOG_ERROR⟩
        else if cstr name = lit "warn" then Except.ok ⟨some (lit "warn"), ESP_LOG_WARN⟩
        else if cstr name = lit "info" then Except.ok ⟨some (lit "info"), ESP_LOG_INFO⟩
        else if cstr name = lit "debug" then Except.ok ⟨some (lit "debug"), ESP_LOG_DEBUG⟩
        else if cstr name = lit "verbose" then
          Except.ok ⟨some (lit "verbose"), ESP_LOG_VERBOSE⟩
        else Except.ok ⟨none, ESP_LOG_NONE⟩) ∧
      resolveLevel name =
        (if cstr name = lit "none" then some ESP_LOG_NONE
        else if cstr name = lit "error" then some ESP_LOG_ERROR
        else if cstr name = lit "warn" then some ESP_LOG_WARN
        else if cstr name = lit "info" then some ESP_LOG_INFO
        else if cstr name = lit "debug" then some ESP_LOG_DEBUG
        else if cstr name = lit "verbose" then some ESP_LOG_VERBOSE
        else none) :=
  ⟨scanLevels_eq name, resolveLevel_eq name⟩

/-- C3 fails as stated: the 6-byte string `info`, zero byte, `x` is none of
the six level names, yet the scan resolves it to `ESP_LOG_INFO`. -/
theorem levels_scan_embedded_nul :
    lit "info" ++ [0, 120] ∉ levelNames ∧
      resolveLevel (lit "info" ++ [0, 120]) = some ESP_LOG_INFO := by
  constructor
  · decide
  · decide

/-- C4, as the code has it: called with exactly two string arguments,
`js_esp32_setLogLevel` returns normally with return code 0 and the value
stack untouched.  When the bytes of `levelName` before its first zero byte
spell one of the six level names, exactly one `esp_log_level_set` call is
made, for the tag spelt by the bytes of `tagPattern` before its first zero
byte and with the severity of that name; otherwise the log state is
unchanged. -/
theorem setLogLevel_cstr (ctx : Ctx) (log : LogState) (tagPattern levelName : List Byte)
    (h : ctx.stack = [Val.string levelName, Val.string tagPattern]) :
    js_esp32_setLogLevel ctx log =
      Except.ok (ctx,
        (if cstr levelName = lit "none" then
          ⟨log.calls ++ [(cstr tagPattern, ESP_LOG_NONE)]⟩
        else if cstr levelName = lit "error" then
          ⟨log.calls ++ [(cstr tagPattern, ESP_LOG_ERROR)]⟩
        else if cstr levelName = lit "warn" then
          ⟨log.calls ++ [(cstr tagPattern, ESP_LOG_WARN)]⟩
        else if cstr levelName = lit "info" then
          ⟨log.calls ++ [(cstr tagPattern, ESP_LOG_INFO)]⟩
        else if cstr levelName = lit "debug" then
          ⟨log.calls ++ [(cstr tagPattern, ESP_LOG_DEBUG)]⟩
        else if cstr levelName = lit "verbose" then
          ⟨log.calls ++ [(cstr tagPattern, ESP_LOG_VERBOSE)]⟩
        else log), 0) := by
  have h1 : duk_get_string ctx (-1) = some levelName := by
    simp [duk_get_string, valueAt, slot, h]
  have h2 : duk_get_string ctx (-2) = some tagPattern := by
    simp [duk_get_string, valueAt, slot, h]
  simp only [js_esp32_setLogLevel, h1, h2, scanLevels_eq]
  split_ifs <;> rfl

/-- C4 at a concrete call: `setLogLevel("*", "warn")` on an empty log state
makes the single call `esp_log_level_set("*", ESP_LOG_WARN)` and returns 0. -/
theorem setLogLevel_cstr_witness :
    (Ctx.ofStack [Val.string (lit "warn"), Val.string (lit "*")]).stack
        = [Val.string (lit "warn"), Val.string (lit "*")] ∧
      (js_esp32_setLogLevel (Ctx.ofStack [Val.string (lit "warn"), Val.string (lit "*")])
          ⟨[]⟩).toOption.map (fun r => (r.2.1, r.2.2))
        = some (⟨[(lit "*", ESP_LOG_WARN)]⟩, 0) := by
  refine ⟨rfl, ?_⟩
  rw [setLogLevel_cstr _ _ (lit "*") (lit "warn") rfl]
  decide

/-- C4 fails as stated: for the level argument `info`, zero byte, `x`,
which is none of the six level names, the call changes the log state: it
sets the tag `*` to `ESP_LOG_INFO`. -/
theorem setLogLevel_embedded_nul :
    lit "info" ++ [0, 120] ∉ levelNames ∧
      (js_esp32_setLogLevel
          (Ctx.ofStack [Val.string (lit "info" ++ [0, 120]), Val.string (lit "*")])
          ⟨[]⟩).toOption.map (fun r => r.2.1)
        = some ⟨[(lit "*", ESP_LOG_INFO)]⟩ := by
  constructor
  · decide
  · decide

/-- C5: called with a string `path` on top of the stack, `js_esp32_loadFile`
never throws and returns 0 or 1.  It returns 0 (no value, stack untouched)
exactly when `stat` fails, or `open` fails, or `read` fails; otherwise it
returns 1 with one new value on top of the stack, a string.  For a path
that names no file it returns 0. -/
theorem loadFile_absent_iff_failure (ctx : Ctx) (w : Posix) (path : List Byte)
    (h : duk_get_string ctx (-1) = some path) :
    ∃ ctx' w' rc, js_esp32_loadFile ctx w = Except.ok (ctx', w', rc) ∧
      (rc = 0 ∨ rc = 1) ∧
      (rc = 0 ↔
        ((stat w path).1 < 0 ∨ (open_rdwr w path).2 < 0 ∨
          (read (open_rdwr w path).1 (open_rdwr w path).2 (stat w path).2).1 < 0)) ∧
      (rc = 0 → ctx' = ctx) ∧
      (rc = 1 → ∃ s, ctx'.stack = Val.string s :: ctx.stack) ∧
      (w.files (cstr path) = none → rc = 0) := by
  rw [loadFile_eq ctx w path h]
  cases hf : w.files (cstr path) with
  | none =>
    exact ⟨ctx, w, 0, rfl, Or.inl rfl, by simp [stat, hf], fun _ => rfl, by simp, fun _ => rfl⟩
  | some content =>
    cases hs : w.statFault with
    | true =>
      simp only [if_true]
      exact ⟨ctx, w, 0, rfl, Or.inl rfl, by simp [stat, hf, hs], fun _ => rfl, by simp,
        fun _ => rfl⟩
    | false =>
      cases ho : w.openFault with
      | true =>
        simp only [if_true, Bool.false_eq_true, if_false]
        exact ⟨ctx, w, 0, rfl, Or.inl rfl, by simp [open_rdwr, hf, ho], fun _ => rfl,
          by simp, fun _ => rfl⟩
      | false =>
        have hr := read_after_open w path content (stat w path).2 hf ho
        cases hrf : w.readFault with
        | true =>
          simp only [if_true, Bool.false_eq_true, if_false]
          refine ⟨ctx, _, 0, rfl, Or.inl rfl, ?_, fun _ => rfl, by simp, fun _ => rfl⟩
          simp [hr, hrf]
        | false =>
          simp only [Bool.false_eq_true, if_false]
          refine ⟨_, _, 1, rfl, Or.inr rfl, ?_, by simp, ?_, by simp⟩
          · have h1 : ¬ (stat w path).1 < 0 := (stat_ok_iff w path).mpr ⟨content, hf, hs⟩
            have h2 : ¬ (open_rdwr w path).2 < 0 := (open_ok_iff w path).mpr ⟨content, hf, ho⟩
            simp [hr, hrf, h1, h2]
          · intro _
            exact ⟨_, rfl⟩

/-- C5 at a concrete call: loading the path `g` from a file system whose
only file is `f` returns normally with return code 0. -/
theorem loadFile_absent_iff_failure_witness :
    duk_get_string (Ctx.ofStack [Val.string (lit "g")]) (-1) = some (lit "g") ∧
      ∃ ctx' w' rc,
        js_esp32_loadFile (Ctx.ofStack [Val.string (lit "g")]) (Posix.single (lit "f") [1, 0, 3] 8)
          = Except.ok (ctx', w', rc) ∧ rc = 0 := by
  refine ⟨by decide, ?_⟩
  obtain ⟨ctx', w', rc, he, _, _, _, _, habs⟩ :=
    loadFile_absent_iff_failure (Ctx.ofStack [Val.string (lit "g")])
      (Posix.single (lit "f") [1, 0, 3] 8) (lit "g") (by decide)
  exact ⟨ctx', w', rc, he, habs (by decide)⟩

/-- C6, as the code has it: when `stat`, `open` and `read` succeed on a
file of `N` bytes (`N` the size `stat` reports), `js_esp32_loadFile` returns
1 and pushes a string of exactly as many bytes as `read` returned, which is
at most `N`; the string is the initial segment of the file's contents of
that length, zero bytes included, and it is the whole contents when `read`
returned `N` bytes (the empty string for `N = 0`). -/
theorem loadFile_initial_segment (ctx : Ctx) (w : Posix) (path content : List Byte)
    (h : duk_get_string ctx (-1) = some path)
    (hf : w.files (cstr path) = some content)
    (hstat : ¬ (stat w path).1 < 0)
    (hopen : ¬ (open_rdwr w path).2 < 0)
    (hread : ¬ (read (open_rdwr w path).1 (open_rdwr w path).2 (stat w path).2).1 < 0) :
    ∃ (s : List Byte) (w' : Posix),
      js_esp32_loadFile ctx w = Except.ok (push ctx (Val.string s), w', 1) ∧
      (stat w path).2 = content.length ∧
      ((read (open_rdwr w path).1 (open_rdwr w path).2 (stat w path).2).1 = (s.length : Int)) ∧
      s.length ≤ content.length ∧
      s = content.take s.length ∧
      (s.length = content.length → s = content) := by
  obtain ⟨c1, hc1, hs⟩ := (stat_ok_iff w path).mp hstat
  obtain ⟨c2, hc2, ho⟩ := (open_ok_iff w path).mp hopen
  have hsz : (stat w path).2 = content.length := by simp [stat, hf, hs]
  have hr := read_after_open w path content (stat w path).2 hf ho
  cases hrf : w.readFault with
  | true =>
    rw [hr, hrf] at hread
    simp at hread
  | false =>
    rw [hrf] at hr
    simp only [Bool.false_eq_true, if_false] at hr
    refine ⟨content.take w.readLimit,
      { w with closed := w.closed ++ [lowestFree (w.openFds.map Prod.fst)] },
      ?_, hsz, ?_, ?_, ?_, ?_⟩
    · rw [loadFile_eq ctx w path h, hf]
      simp only [hs, ho, hrf, Bool.false_eq_true, if_false]
    · rw [hr, hsz]
      simp only [List.length_take]
      congr 1
      omega
    · simp only [List.length_take]
      omega
    · rw [List.take_eq_take]
      simp only [List.length_take]
      omega
    · intro hl
      apply List.take_of_length_le
      simp only [List.length_take] at hl
      omega

/-- C6 at a concrete call: a three-byte file read with a limit of two
bytes per `read`. -/
theorem loadFile_initial_segment_witness :
    duk_get_string (Ctx.ofStack [Val.string (lit "f")]) (-1) = some (lit "f") ∧
      (Posix.single (lit "f") [1, 0, 3] 2).files (cstr (lit "f")) = some [1, 0, 3] ∧
      (∃ (s : List Byte) (w' : Posix),
        js_esp32_loadFile (Ctx.ofStack [Val.string (lit "f")]) (Posix.single (lit "f") [1, 0, 3] 2)
          = Except.ok (push (Ctx.ofStack [Val.string (lit "f")]) (Val.string s), w', 1) ∧
        (stat (Posix.single (lit "f") [1, 0, 3] 2) (lit "f")).2 = 3 ∧ s.length ≤ 3 ∧
        s = List.take s.length [1, 0, 3]) := by
  refine ⟨by decide, by decide, ?_⟩
  obtain ⟨s, w', h1, h2, _, h4, h5, _⟩ :=
    loadFile_initial_segment (Ctx.ofStack [Val.string (lit "f")])
      (Posix.single (lit "f") [1, 0, 3] 2) (lit "f") [1, 0, 3]
      (by decide) (by decide) (by decide) (by decide) (by decide)
  exact ⟨s, w', h1, h2, h4, h5⟩

/-- C6 fails as stated: on the three-byte file `1 0 3`, `stat` reports 3,
`open` returns descriptor 0 and `read` succeeds with 2 bytes; the call
returns the two-byte string `1 0`, not the three bytes of the file. -/
theorem loadFile_short_read :
    (Posix.single (lit "f") [1, 0, 3] 2).files (cstr (lit "f")) = some [1, 0, 3] ∧
      (stat (Posix.single (lit "f") [1, 0, 3] 2) (lit "f")) = (0, 3) ∧
      (open_rdwr (Posix.single (lit "f") [1, 0, 3] 2) (lit "f")).2 = 0 ∧
      (read (open_rdwr (Posix.single (lit "f") [1, 0, 3] 2) (lit "f")).1 0 3) = (2, [1, 0]) ∧
      (js_esp32_loadFile (Ctx.ofStack [Val.string (lit "f")])
          (Posix.single (lit "f") [1, 0, 3] 2)).toOption.map
            (fun r => (r.1.stack.head?, r.2.2))
        = some (some (Val.string [1, 0]), 1) ∧
      Val.string [1, 0] ≠ Val.string [1, 0, 3] := by
  refine ⟨by decide, by decide, by decide, by decide, by decide, by decide⟩

/-- C7: called with a string `path` on top of the stack,
`js_esp32_loadFile` returns with the table of open descriptors equal to the
one it started with, on every path.  When `stat` or `open` fails no `close`
is issued; when both succeed the descriptor that `open` returned is entered
in the table and exactly one `close`, of that descriptor, is issued before
the return, whether `read` fails, is short or is full. -/
theorem loadFile_descriptors (ctx : Ctx) (w : Posix) (path : List Byte)
    (h : duk_get_string ctx (-1) = some path) :
    ∃ ctx' w' rc, js_esp32_loadFile ctx w = Except.ok (ctx', w', rc) ∧
      w'.openFds = w.openFds ∧
      (((stat w path).1 < 0 ∨ (open_rdwr w path).2 < 0) → w'.closed = w.closed) ∧
      ((¬ (stat w path).1 < 0 ∧ ¬ (open_rdwr w path).2 < 0) →
        (open_rdwr w path).1.openFds
            = (((open_rdwr w path).2).toNat, cstr path) :: w.openFds ∧
          w'.closed = w.closed ++ [((open_rdwr w path).2).toNat]) := by
  rw [loadFile_eq ctx w path h]
  cases hf : w.files (cstr path) with
  | none =>
    exact ⟨ctx, w, 0, rfl, rfl, fun _ => rfl, by simp [stat, hf]⟩
  | some content =>
    cases hs : w.statFault with
    | true =>
      simp only [if_true]
      exact ⟨ctx, w, 0, rfl, rfl, fun _ => rfl, by simp [stat, hf, hs]⟩
    | false =>
      cases ho : w.openFault with
      | true =>
        simp only [if_true, Bool.false_eq_true, if_false]
        exact ⟨ctx, w, 0, rfl, rfl, fun _ => rfl, by simp [open_rdwr, hf, ho]⟩
      | false =>
        have h1 : ¬ (stat w path).1 < 0 := (stat_ok_iff w path).mpr ⟨content, hf, hs⟩
        have h2 : ¬ (open_rdwr w path).2 < 0 := (open_ok_iff w path).mpr ⟨content, hf, ho⟩
        have h3 : (open_rdwr w path).2 = (lowestFree (w.openFds.map Prod.fst) : Int) := by
          simp [open_rdwr, hf, ho]
        have h4 : (open_rdwr w path).1.openFds
            = (lowestFree (w.openFds.map Prod.fst), cstr path) :: w.openFds := by
          simp [open_rdwr, hf, ho]
        cases hrf : w.readFault with
        | true =>
          simp only [if_true, Bool.false_eq_true, if_false]
          refine ⟨ctx, _, 0, rfl, rfl, ?_, ?_⟩
          · intro hc
            rcases hc with hc | hc
            · exact absurd hc h1
            · exact absurd hc h2
          · intro _
            rw [h3, h4]
            simp
        | false =>
          simp only [Bool.false_eq_true, if_false]
          refine ⟨_, _, 1, rfl, rfl, ?_, ?_⟩
          · intro hc
            rcases hc with hc | hc
            · exact absurd hc h1
            · exact absurd hc h2
          · intro _
            rw [h3, h4]
            simp

/-- C7 at a concrete call: a short read on a file system with no open
descriptor ends with no open descriptor and the single `close(0)`. -/
theorem loadFile_descriptors_witness :
    duk_get_string (Ctx.ofStack [Val.string (lit "f")]) (-1) = some (lit "f") ∧
      ∃ ctx' w' rc,
        js_esp32_loadFile (Ctx.ofStack [Val.string (lit "f")]) (Posix.single (lit "f") [1, 0, 3] 2)
          = Except.ok (ctx', w', rc) ∧ w'.openFds = [] ∧ w'.closed = [0] := by
  refine ⟨by decide, ?_⟩
  obtain ⟨ctx', w', rc, he, hfd, _, hcl⟩ :=
    loadFile_descriptors (Ctx.ofStack [Val.string (lit "f")])
      (Posix.single (lit "f") [1, 0, 3] 2) (lit "f") (by decide)
  exact ⟨ctx', w', rc, he, hfd, (hcl ⟨by decide, by decide⟩).2.trans (by decide)⟩

/-- C8: after `ModuleESP32` the global object has the property `ESP32`, a
reference to a fresh object whose properties are exactly `reset`,
`getState`, `getNativeFunction`, `debug`, `setLogLevel`, `gc`, `loadFile`, each a
fresh native function bound to its own C function with arities 0, 0, 1, 0,
2, 0, 1; after `ModuleConsole` the global object has the property `log`, the
native function `js_global_log` of arity 1, and the property `console`, a
fresh object whose only property is `log`, the native function
`js_console_log` of arity 1.  Objects that existed before and the other
global properties are untouched. -/
theorem modules_surface (ctx : Ctx) :
    (∃ c, ModuleESP32 ctx = Except.ok c ∧
      getProp "ESP32" c.globalProps = some (Val.object (Ref.addr ctx.next)) ∧
      c.objs ctx.next = ⟨ObjKind.plain,
        [("reset", Val.object (Ref.addr (ctx.next + 1))),
          ("getState", Val.object (Ref.addr (ctx.next + 2))),
          ("getNativeFunction", Val.object (Ref.addr (ctx.next + 3))),
          ("debug", Val.object (Ref.addr (ctx.next + 4))),
          ("setLogLevel", Val.object (Ref.addr (ctx.next + 5))),
          ("gc", Val.object (Ref.addr (ctx.next + 6))),
          ("loadFile", Val.object (Ref.addr (ctx.next + 7)))]⟩ ∧
      c.objs (ctx.next + 1) = ⟨ObjKind.native CFunc.js_esp32_reset 0, []⟩ ∧
      c.objs (ctx.next + 2) = ⟨ObjKind.native CFunc.js_esp32_getState 0, []⟩ ∧
      c.objs (ctx.next + 3) = ⟨ObjKind.native CFunc.js_esp32_getNativeFunction 1, []⟩ ∧
      c.objs (ctx.next + 4) = ⟨ObjKind.native CFunc.js_esp32_debug 0, []⟩ ∧
      c.objs (ctx.next + 5) = ⟨ObjKind.native CFunc.js_esp32_setLogLevel 2, []⟩ ∧
      c.objs (ctx.next + 6) = ⟨ObjKind.native CFunc.js_esp32_gc 0, []⟩ ∧
      c.objs (ctx.next + 7) = ⟨ObjKind.native CFunc.js_esp32_loadFile 1, []⟩ ∧
      (∀ a, a < ctx.next → c.objs a = ctx.objs a) ∧
      (∀ k, k ≠ "ESP32" → getProp k c.globalProps = getProp k ctx.globalProps)) ∧
    (∃ c, ModuleConsole ctx = Except.ok c ∧
      getProp "log" c.globalProps = some (Val.object (Ref.addr ctx.next)) ∧
      c.objs ctx.next = ⟨ObjKind.native CFunc.js_global_log 1, []⟩ ∧
      getProp "console" c.globalProps = some (Val.object (Ref.addr (ctx.next + 1))) ∧
      c.objs (ctx.next + 1)
        = ⟨ObjKind.plain, [("log", Val.object (Ref.addr (ctx.next + 2)))]⟩ ∧
      c.objs (ctx.next + 2) = ⟨ObjKind.native CFunc.js_console_log 1, []⟩ ∧
      (∀ a, a < ctx.next → c.objs a = ctx.objs a) ∧
      (∀ k, k ≠ "log" → k ≠ "console" →
        getProp k c.globalProps = getProp k ctx.globalProps)) := by
  constructor
  · refine ⟨_, ModuleESP32_eq ctx, ?_, ?_, ?_, ?_, ?_, ?_, ?_, ?_, ?_, ?_, ?_⟩
    · exact getProp_putProp_same _ _ _
    · simp
    · simp
    · simp
    · simp
    · simp
    · simp
    · simp
    · simp
    · intro a ha
      have h0 : a ≠ ctx.next := by omega
      have h1 : a ≠ ctx.next + 1 := by omega
      have h2 : a ≠ ctx.next + 2 := by omega
      have h3 : a ≠ ctx.next + 3 := by omega
      have h4 : a ≠ ctx.next + 4 := by omega
      have h5 : a ≠ ctx.next + 5 := by omega
      have h6 : a ≠ ctx.next + 6 := by omega
      have h7 : a ≠ ctx.next + 7 := by omega
      simp [h0, h1, h2, h3, h4, h5, h6, h7]
    · intro k hk
      exact getProp_putProp_ne _ _ _ _ hk
  · refine ⟨_, ModuleConsole_eq ctx, ?_, ?_, ?_, ?_, ?_, ?_, ?_⟩
    · rw [getProp_putProp_ne _ _ _ _ (by decide)]
      exact getProp_putProp_same _ _ _
    · simp
    · exact getProp_putProp_same _ _ _
    · simp
    · simp
    · intro a ha
      have h0 : a ≠ ctx.next := by omega
      have h1 : a ≠ ctx.next + 1 := by omega
      have h2 : a ≠ ctx.next + 2 := by omega
      simp [h0, h1, h2]
    · intro k hk1 hk2
      rw [getProp_putProp_ne _ _ _ _ hk2, getProp_putProp_ne _ _ _ _ hk1]

/-- C9, as the code has it: `js_esp32_debug` tests no state, so for every
session, whatever state it starts in, the call enters `LISTENING`, then
waits.  When a debugger connects it enters `CONNECTED`, then calls
`duk_debugger_attach` exactly once, in state `CONNECTED`, with the five
socket callbacks (the detached callback and the user data are null), enters
`ATTACHED` and returns 0: the states entered are `LISTENING`, `CONNECTED`,
`ATTACHED` in this order, none skipped.  When no debugger connects the call
never returns, the session stays `LISTENING`, no attach is performed and
the callback slots are as before.  A call on a closed session therefore
runs `CLOSED`, `LISTENING`, `CONNECTED`, `ATTACHED`. -/
theorem debug_attach_sequence (d : DebugSession) :
    js_esp32_debug true d =
        (⟨ATTACHED, d.entered ++ [LISTENING, CONNECTED, ATTACHED],
          ⟨some duk_trans_socket_read_cb, some duk_trans_socket_write_cb,
            some duk_trans_socket_peek_cb, some duk_trans_socket_read_flush_cb,
            some duk_trans_socket_write_flush_cb, none, none⟩,
          d.attachedIn ++ [CONNECTED]⟩, some 0) ∧
      js_esp32_debug false d =
        (⟨LISTENING, d.entered ++ [LISTENING], d.slots, d.attachedIn⟩, none) ∧
      d.transportState :: ((js_esp32_debug true d).1.entered.drop d.entered.length)
        = [d.transportState, LISTENING, CONNECTED, ATTACHED] ∧
      (js_esp32_debug true d).1.attachedIn.drop d.attachedIn.length = [CONNECTED] ∧
      (js_esp32_debug false d).1.attachedIn.drop d.attachedIn.length = [] := by
  refine ⟨?_, rfl, ?_, ?_, ?_⟩
  · simp [js_esp32_debug, duk_trans_socket_init, duk_trans_socket_waitconn, duk_debugger_attach]
  · simp [js_esp32_debug, duk_trans_socket_init, duk_trans_socket_waitconn, duk_debugger_attach]
  · simp [js_esp32_debug, duk_trans_socket_init, duk_trans_socket_waitconn, duk_debugger_attach]
  · simp [js_esp32_debug, duk_trans_socket_init, duk_trans_socket_waitconn]

/-- C9 fails as stated: the first call on a fresh session leaves it
`ATTACHED`; a second call on that session is an execution that starts in
`ATTACHED`, not in `CLOSED`, and runs `ATTACHED`, `LISTENING`, `CONNECTED`,
`ATTACHED`. -/
theorem debug_second_call_starts_attached :
    (js_esp32_debug true DebugSession.fresh).1.transportState = ATTACHED ∧
      (js_esp32_debug true DebugSession.fresh).1.transportState ::
          ((js_esp32_debug true (js_esp32_debug true DebugSession.fresh).1).1.entered.drop
            (js_esp32_debug true DebugSession.fresh).1.entered.length)
        = [ATTACHED, LISTENING, CONNECTED, ATTACHED] ∧
      [ATTACHED, LISTENING, CONNECTED, ATTACHED] ≠ [CLOSED, LISTENING, CONNECTED, ATTACHED] := by
  refine ⟨by decide, by decide, by decide⟩

/-- C10: for a free-heap reading `h` below `2 ^ 32`, `js_esp32_getState`
returns normally with return code 1; the stack is the old stack with one
value pushed, a reference to a fresh object whose only property is
`heapSize`, the finite number `h`, which is not negative; every other object
and the global properties are unchanged. -/
theorem getState_snapshot (ctx : Ctx) (h : Nat) (hh : h < 2 ^ 32) :
    js_esp32_getState ctx h = Except.ok
        ({ stack := Val.object (Ref.addr ctx.next) :: ctx.stack
           objs := Function.update ctx.objs ctx.next
             ⟨ObjKind.plain, [("heapSize", Val.number (DukNumber.finite (h : ℚ)))]⟩
           next := ctx.next + 1
           globalProps := ctx.globalProps }, 1) ∧
      (0 : ℚ) ≤ (h : ℚ) := by
  have hmod : h % 4294967296 = h := by omega
  refine ⟨?_, Nat.cast_nonneg h⟩
  simp [js_esp32_getState, duk_push_object, duk_push_number, pushNew, push, put_neg_two_addr,
    bind, Except.bind, pure, Except.pure, putProp, double_of_uint32, hmod]

/-- C10 at a concrete input: a reading of 40000 bytes on an empty stack. -/
theorem getState_snapshot_witness :
    (40000 : Nat) < 2 ^ 32 ∧
      outcome (js_esp32_getState (Ctx.ofStack []) 40000)
        = Outcome.value (Val.object (Ref.addr 0))
            (some ⟨ObjKind.plain, [("heapSize", Val.number (DukNumber.finite 40000))]⟩) := by
  refine ⟨by decide, ?_⟩
  rw [(getState_snapshot (Ctx.ofStack []) 40000 (by decide)).1]
  simp [outcome, deref, Ctx.ofStack]

end Esp32Duktape
